import Mathlib

/-!
# Vulkan context bootstrap: device selection and swapchain configuration

A shallow embedding of `src/vulkan_context.c`.  Native Vulkan / GLFW calls are
read-only queries or object constructors; their answers are carried by the
records `PhysicalDevice`, `GLFWwindow` and `Driver`, and every C function of
the file becomes a Lean function over those records.

Machine integers: `uint32_t` values are `Nat` (arithmetic is reduced modulo
`2 ^ 32` where the C code can wrap), `int32_t` / `int` values are `Int`.
`VkBool32` and the `uint32_t` truth values returned by the helpers are `Nat`
with the C reading "non-zero is true".
-/

namespace VulkanTriangle

/-! ## Constants of the Vulkan and C headers -/

/-- The largest `uint32_t`, from `stdint.h`. -/
def UINT32_MAX : Nat := 4294967295

/-- Success code of `VkResult`. -/
def VK_SUCCESS : Int := 0

/-- The error code the builders return when a native creation fails. -/
def VK_ERROR_INITIALIZATION_FAILED : Int := -3

/-- Graphics capability bit of `VkQueueFlags`. -/
def VK_QUEUE_GRAPHICS_BIT : Nat := 1

/-- The 24-bit BGR sRGB format of `VkFormat`. -/
def VK_FORMAT_B8G8R8_SRGB : Nat := 36

/-- The standard non-linear sRGB colour space of `VkColorSpaceKHR`. -/
def VK_COLOR_SPACE_SRGB_NONLINEAR_KHR : Nat := 0

/-- Mailbox (low-latency) present mode. -/
def VK_PRESENT_MODE_MAILBOX_KHR : Nat := 1

/-- First-in-first-out (vertical sync) present mode. -/
def VK_PRESENT_MODE_FIFO_KHR : Nat := 2

/-- Exclusive image sharing. -/
def VK_SHARING_MODE_EXCLUSIVE : Nat := 0

/-- Concurrent image sharing. -/
def VK_SHARING_MODE_CONCURRENT : Nat := 1

/-- Name of the swapchain device extension. -/
def VK_KHR_SWAPCHAIN_EXTENSION_NAME : String := "VK_KHR_swapchain"

/-- The `enum rendererStatus` of `vulkan_context.h`: failure is listed first. -/
def VULKAN_CONTEXT_FAILURE : Nat := 0

/-- The `enum rendererStatus` of `vulkan_context.h`: success is listed second. -/
def VULKAN_CONTEXT_SUCCESS : Nat := 1

/-- Size in bytes of an object pointer, the value of `sizeof` applied to a
pointer-typed expression (LP64).  Only the fact that it is non-zero matters. -/
def sizeofPointer : Nat := 8

/-- The file-scope array `deviceExtensions`. -/
def deviceExtensions : List String := [VK_KHR_SWAPCHAIN_EXTENSION_NAME]

/-! ## Integer conversions and C truth values -/

/-- Conversion of an unsigned value to `uint32_t`. -/
def toUInt32 (i : Int) : Nat := (i % 4294967296).toNat

/-- Conversion of a `size_t` value to `int32_t` (two's complement wrap). -/
def toInt32 (n : Nat) : Int :=
  if n % 4294967296 < 2147483648 then ((n % 4294967296 : Nat) : Int)
  else ((n % 4294967296 : Nat) : Int) - 4294967296

/-- The C operator `&&` on integer truth values. -/
def cAnd (a b : Nat) : Nat := if a ≠ 0 ∧ b ≠ 0 then 1 else 0

/-- Character-wise comparison behind `strcmp`: zero when both strings end
together, otherwise the sign given by the first position where they differ. -/
def strcmpChars : List Char → List Char → Int
  | [], [] => 0
  | [], _ :: _ => -1
  | _ :: _, [] => 1
  | a :: as, b :: bs =>
    if a = b then strcmpChars as bs else if a.toNat < b.toNat then -1 else 1

/-- The C library function `strcmp` on NUL-terminated strings, up to the
magnitude of a non-zero result. -/
def strcmp (a b : String) : Int := strcmpChars a.data b.data

/-! ## Data model -/

/-- The struct `VkExtent2D`. -/
structure VkExtent2D where
  width : Nat
  height : Nat
  deriving DecidableEq, Repr

/-- The struct `VkSurfaceFormatKHR`. -/
structure VkSurfaceFormatKHR where
  format : Nat
  colorSpace : Nat
  deriving DecidableEq, Repr

/-- The fields of `VkSurfaceCapabilitiesKHR` that the program reads. -/
structure VkSurfaceCapabilitiesKHR where
  minImageCount : Nat
  maxImageCount : Nat
  currentExtent : VkExtent2D
  minImageExtent : VkExtent2D
  maxImageExtent : VkExtent2D
  currentTransform : Nat
  deriving DecidableEq, Repr

/-- One queue family of a device: its `VkQueueFamilyProperties.queueFlags` and
the answer of `vkGetPhysicalDeviceSurfaceSupportKHR` for the bound surface. -/
structure QueueFamily where
  queueFlags : Nat
  presentSupport : Nat
  deriving DecidableEq, Repr

/-- The struct `QueueFamilyIndices` of `vulkan_context.h`; a negative field is
unset. -/
structure QueueFamilyIndices where
  graphics : Int
  present : Int
  deriving DecidableEq, Repr

/-- What the capability queries answer for one `VkPhysicalDevice` against the
bound surface. -/
structure PhysicalDevice where
  queueFamilies : List QueueFamily
  availableExtensions : List String
  capabilities : VkSurfaceCapabilitiesKHR
  formats : List VkSurfaceFormatKHR
  presentModes : List Nat
  deriving DecidableEq, Repr

/-- The struct `SwapChainSupportDetails` of `vulkan_context.h`; the two
pointer fields are the arrays they point to. -/
structure SwapChainSupportDetails where
  capabilities : VkSurfaceCapabilitiesKHR
  formats : List VkSurfaceFormatKHR
  formatsCount : Nat
  presentModes : List Nat
  presentModesCount : Nat
  deriving DecidableEq, Repr

/-- The window: what `glfwGetFramebufferSize` writes (two C `int`s). -/
structure GLFWwindow where
  framebufferWidth : Int
  framebufferHeight : Int
  deriving DecidableEq, Repr

/-! ## Queue families, extensions, swapchain support -/

/-- The loop of `getQueueFamilies` from family index `i` on: every family with
the graphics bit overwrites `graphics`, every family with present support
overwrites `present`. -/
def getQueueFamiliesLoop : List QueueFamily → Nat → QueueFamilyIndices → QueueFamilyIndices
  | [], _, indices => indices
  | q :: rest, i, indices =>
    let indices1 : QueueFamilyIndices :=
      if q.queueFlags &&& VK_QUEUE_GRAPHICS_BIT ≠ 0 then
        { indices with graphics := toInt32 i } else indices
    let indices2 : QueueFamilyIndices :=
      if q.presentSupport ≠ 0 then { indices1 with present := toInt32 i } else indices1
    getQueueFamiliesLoop rest (i + 1) indices2

/-- The function `getQueueFamilies`. -/
def getQueueFamilies (device : PhysicalDevice) : QueueFamilyIndices :=
  getQueueFamiliesLoop device.queueFamilies 0 { graphics := -1, present := -1 }

/-- The inner loop of `checkDeviceExtensionSupport`: is `name` found among the
available extension names. -/
def extensionFound (name : String) : List String → Nat
  | [] => 0
  | a :: rest => if strcmp name a = 0 then 1 else extensionFound name rest

/-- The outer loop of `checkDeviceExtensionSupport` over the required names. -/
def extensionsSatisfied : List String → List String → Nat
  | [], _ => 1
  | r :: rest, available =>
    if extensionFound r available = 0 then 0 else extensionsSatisfied rest available

/-- The function `checkDeviceExtensionSupport`. -/
def checkDeviceExtensionSupport (device : PhysicalDevice) : Nat :=
  extensionsSatisfied deviceExtensions device.availableExtensions

/-- The function `querySwapChainSupport`. -/
def querySwapChainSupport (device : PhysicalDevice) : SwapChainSupportDetails :=
  { capabilities := device.capabilities
    formats := device.formats
    formatsCount := device.formats.length
    presentModes := device.presentModes
    presentModesCount := device.presentModes.length }

/-- The function `isDeviceSuitable`.  `swapChainAdequate` is computed from
`sizeof` of the two pointer fields of the details record. -/
def isDeviceSuitable (device : PhysicalDevice) : Nat :=
  let indices := getQueueFamilies device
  let validIndices := cAnd (if indices.graphics ≥ 0 then 1 else 0)
    (if indices.present ≥ 0 then 1 else 0)
  let extensionsSupported := checkDeviceExtensionSupport device
  let swapChainAdequate :=
    if extensionsSupported ≠ 0 then
      let _swapChainDetails := querySwapChainSupport device
      cAnd sizeofPointer sizeofPointer
    else 0
  cAnd (cAnd validIndices extensionsSupported) swapChainAdequate

/-! ## Swapchain choices -/

/-- The `for` loop of `chooseSwapSurfaceFormat`: the first entry with the
preferred format and colour space, when the loop returns one. -/
def chooseSwapSurfaceFormatLoop : List VkSurfaceFormatKHR → Option VkSurfaceFormatKHR
  | [] => none
  | f :: rest =>
    if f.format = VK_FORMAT_B8G8R8_SRGB ∧ f.colorSpace = VK_COLOR_SPACE_SRGB_NONLINEAR_KHR
    then some f else chooseSwapSurfaceFormatLoop rest

/-- The function `chooseSwapSurfaceFormat`; `none` is the out-of-bounds read
of `availableFormats[0]` on an empty array. -/
def chooseSwapSurfaceFormat (availableFormats : List VkSurfaceFormatKHR) :
    Option VkSurfaceFormatKHR :=
  match chooseSwapSurfaceFormatLoop availableFormats with
  | some f => some f
  | none => availableFormats[0]?

/-- The function `chooseSwapPresentMode`. -/
def chooseSwapPresentMode : List Nat → Nat
  | [] => VK_PRESENT_MODE_FIFO_KHR
  | m :: rest => if m = VK_PRESENT_MODE_MAILBOX_KHR then m else chooseSwapPresentMode rest

/-- The function `chooseSwapExtent`.  In the `else` branch each field of
`actualExtent` is assigned twice, both times from a comparison of the
unclamped `width` / `height`; the second assignment is the one that stays. -/
def chooseSwapExtent (capabilities : VkSurfaceCapabilitiesKHR) (window : GLFWwindow) :
    VkExtent2D :=
  if capabilities.currentExtent.width ≠ UINT32_MAX then capabilities.currentExtent
  else
    let width := toUInt32 window.framebufferWidth
    let height := toUInt32 window.framebufferHeight
    let actualExtent : VkExtent2D := { width := width, height := height }
    let actualExtent := { actualExtent with
      width := if width < capabilities.minImageExtent.width
        then capabilities.minImageExtent.width else width }
    let actualExtent := { actualExtent with
      width := if width > capabilities.maxImageExtent.width
        then capabilities.maxImageExtent.width else width }
    let actualExtent := { actualExtent with
      height := if height < capabilities.minImageExtent.height
        then capabilities.minImageExtent.height else height }
    let actualExtent := { actualExtent with
      height := if height > capabilities.maxImageExtent.height
        then capabilities.maxImageExtent.height else height }
    actualExtent

/-- The fields of `VkSwapchainCreateInfoKHR` that `createSwapChain` fills in;
the record starts zero-initialised, so a field that is not assigned is `0`
and an unattached index array is empty. -/
structure VkSwapchainCreateInfoKHR where
  minImageCount : Nat
  imageFormat : Nat
  imageColorSpace : Nat
  imageExtent : VkExtent2D
  imageArrayLayers : Nat
  imageSharingMode : Nat
  queueFamilyIndexCount : Nat
  pQueueFamilyIndices : List Nat
  preTransform : Nat
  presentMode : Nat
  deriving DecidableEq, Repr

/-- The image count of `createSwapChain`: `minImageCount + 1` in 32-bit
unsigned arithmetic, replaced by a non-zero `maxImageCount` that it exceeds. -/
def imageCount (capabilities : VkSurfaceCapabilitiesKHR) : Nat :=
  let imageCount := (capabilities.minImageCount + 1) % 4294967296
  let maxImageCount := capabilities.maxImageCount
  if maxImageCount > 0 ∧ imageCount > maxImageCount then maxImageCount else imageCount

/-- The `VkSwapchainCreateInfoKHR` that `createSwapChain` hands to
`vkCreateSwapchainKHR`; `none` when the format choice reads out of bounds. -/
def swapchainCreateInfo (physicalDevice : PhysicalDevice) (window : GLFWwindow)
    (queueFamilyIndices : QueueFamilyIndices) (indices : List Nat) (indexCount : Nat) :
    Option VkSwapchainCreateInfoKHR :=
  let swapChainDetails := querySwapChainSupport physicalDevice
  match chooseSwapSurfaceFormat swapChainDetails.formats with
  | none => none
  | some surfaceFormat =>
    let presentMode := chooseSwapPresentMode swapChainDetails.presentModes
    let extent := chooseSwapExtent swapChainDetails.capabilities window
    let concurrent : Bool := queueFamilyIndices.graphics ≠ queueFamilyIndices.present
    some
      { minImageCount := imageCount swapChainDetails.capabilities
        imageFormat := surfaceFormat.format
        imageColorSpace := surfaceFormat.colorSpace
        imageExtent := extent
        imageArrayLayers := 1
        imageSharingMode :=
          if concurrent then VK_SHARING_MODE_CONCURRENT else VK_SHARING_MODE_EXCLUSIVE
        queueFamilyIndexCount := if concurrent then indexCount else 0
        pQueueFamilyIndices := if concurrent then indices else []
        preTransform := swapChainDetails.capabilities.currentTransform
        presentMode := presentMode }

/-! ## Context construction -/

/-- Answers of the native calls of `initializeVulkanContext` that are not
per-device capability queries.  A `VkResult` is an `Int`, a handle a `Nat`
with `0` the null handle. -/
structure Driver where
  glfwRequiredInstanceExtensions : Option (List String)
  vkCreateInstance : Int
  glfwCreateWindowSurface : Int
  physicalDevices : List PhysicalDevice
  vkEnumeratePhysicalDevices : Int
  vkCreateDevice : Int
  vkCreateSwapchainKHR : Int
  swapChain : Nat
  swapChainImages : List Nat
  vkCreateImageView : Nat → Int
  vkCreateRenderPass : Int
  vkCreatePipelineLayout : Int
  vkCreateGraphicsPipelines : Int

/-- The device-selection loop of `initializeVulkanContext`: the first device
for which `isDeviceSuitable` is non-zero, `none` for `VK_NULL_HANDLE`. -/
def selectPhysicalDevice : List PhysicalDevice → Option PhysicalDevice
  | [] => none
  | d :: rest => if isDeviceSuitable d ≠ 0 then some d else selectPhysicalDevice rest

/-- The function `createSwapChain`: the swapchain handle, `0` (`NULL`) when
`vkCreateSwapchainKHR` fails; `none` when the format choice reads out of
bounds. -/
def createSwapChain (drv : Driver) (physicalDevice : PhysicalDevice) (window : GLFWwindow)
    (queueFamilyIndices : QueueFamilyIndices) (indices : List Nat) (indexCount : Nat) :
    Option Nat :=
  match swapchainCreateInfo physicalDevice window queueFamilyIndices indices indexCount with
  | none => none
  | some _ => if drv.vkCreateSwapchainKHR ≠ VK_SUCCESS then some 0 else some drv.swapChain

/-- The function `createRenderPass`. -/
def createRenderPass (drv : Driver) : Int :=
  if drv.vkCreateRenderPass ≠ VK_SUCCESS then VK_ERROR_INITIALIZATION_FAILED else VK_SUCCESS

/-- The return value of `createGraphicsPipeline`. -/
def createGraphicsPipeline (drv : Driver) : Int :=
  if drv.vkCreatePipelineLayout ≠ VK_SUCCESS then VK_ERROR_INITIALIZATION_FAILED
  else if drv.vkCreateGraphicsPipelines ≠ VK_SUCCESS then VK_ERROR_INITIALIZATION_FAILED
  else VK_SUCCESS

/-- The image-view loop of `initializeVulkanContext`: `true` when every
`vkCreateImageView` call succeeds. -/
def imageViewsCreated (drv : Driver) : List Nat → Bool
  | [] => true
  | image :: rest =>
    if drv.vkCreateImageView image ≠ VK_SUCCESS then false else imageViewsCreated drv rest

/-- The return value of `initializeVulkanContext`; `none` when `createSwapChain`
reads out of bounds. -/
def initializeVulkanContext (drv : Driver) (window : GLFWwindow) : Option Nat :=
  match drv.glfwRequiredInstanceExtensions with
  | none => some VULKAN_CONTEXT_FAILURE
  | some _ =>
    if drv.vkCreateInstance ≠ VK_SUCCESS then some VULKAN_CONTEXT_FAILURE
    else if drv.glfwCreateWindowSurface ≠ VK_SUCCESS then some VULKAN_CONTEXT_FAILURE
    else if drv.physicalDevices.length = 0 ∨ drv.vkEnumeratePhysicalDevices ≠ VK_SUCCESS then
      some VULKAN_CONTEXT_FAILURE
    else
      match selectPhysicalDevice drv.physicalDevices with
      | none => some VULKAN_CONTEXT_FAILURE
      | some physicalDevice =>
        let queueFamilyIndices := getQueueFamilies physicalDevice
        let indices : List Nat :=
          [toUInt32 queueFamilyIndices.graphics, toUInt32 queueFamilyIndices.present]
        if drv.vkCreateDevice ≠ VK_SUCCESS then some VULKAN_CONTEXT_FAILURE
        else
          match createSwapChain drv physicalDevice window queueFamilyIndices indices
              indices.length with
          | none => none
          | some swapChain =>
            if swapChain = 0 then some VULKAN_CONTEXT_FAILURE
            else if imageViewsCreated drv drv.swapChainImages = false then
              some VULKAN_CONTEXT_FAILURE
            else
              let _renderPassResult := createRenderPass drv
              let _pipelineResult := createGraphicsPipeline drv
              some VULKAN_CONTEXT_SUCCESS

/-! ## Concrete devices used in the scenarios -/

/-- Capabilities with a fixed 800 x 600 current extent and 2..8 images. -/
def fixedCapabilities : VkSurfaceCapabilitiesKHR :=
  { minImageCount := 2, maxImageCount := 8
    currentExtent := { width := 800, height := 600 }
    minImageExtent := { width := 1, height := 1 }
    maxImageExtent := { width := 4096, height := 4096 }
    currentTransform := 1 }

/-- Capabilities with the undefined current extent and extents limited to
100..1000 on both axes. -/
def undefinedExtentCapabilities : VkSurfaceCapabilitiesKHR :=
  { minImageCount := 2, maxImageCount := 0
    currentExtent := { width := UINT32_MAX, height := UINT32_MAX }
    minImageExtent := { width := 100, height := 100 }
    maxImageExtent := { width := 1000, height := 1000 }
    currentTransform := 1 }

/-- Scenario device A: family 0 does graphics and present, two extensions
including the required one, one format, FIFO only. -/
def deviceA : PhysicalDevice :=
  { queueFamilies := [{ queueFlags := 1, presentSupport := 1 }]
    availableExtensions := ["VK_KHR_swapchain", "VK_KHR_maintenance1"]
    capabilities := fixedCapabilities
    formats := [{ format := 44, colorSpace := 0 }]
    presentModes := [VK_PRESENT_MODE_FIFO_KHR] }

/-- Scenario device B: a graphics family but no present-capable family. -/
def deviceB : PhysicalDevice :=
  { queueFamilies := [{ queueFlags := 1, presentSupport := 0 }]
    availableExtensions := ["VK_KHR_swapchain", "VK_KHR_maintenance1"]
    capabilities := fixedCapabilities
    formats := [{ format := 44, colorSpace := 0 }]
    presentModes := [VK_PRESENT_MODE_FIFO_KHR] }

/-- A device with valid queue families and the required extension whose
surface-format list and present-mode list are both empty. -/
def deviceNoSwapChainSupport : PhysicalDevice :=
  { queueFamilies := [{ queueFlags := 1, presentSupport := 1 }]
    availableExtensions := ["VK_KHR_swapchain"]
    capabilities := fixedCapabilities
    formats := []
    presentModes := [] }

/-- An 800 x 600 window. -/
def window800 : GLFWwindow := { framebufferWidth := 800, framebufferHeight := 600 }

/-- A 50 x 50 window, smaller than the minimum of `undefinedExtentCapabilities`. -/
def window50 : GLFWwindow := { framebufferWidth := 50, framebufferHeight := 50 }

/-- A driver on which every native call succeeds, over the given devices. -/
def okDriver (devices : List PhysicalDevice) : Driver :=
  { glfwRequiredInstanceExtensions := some ["VK_KHR_surface"]
    vkCreateInstance := VK_SUCCESS
    glfwCreateWindowSurface := VK_SUCCESS
    physicalDevices := devices
    vkEnumeratePhysicalDevices := VK_SUCCESS
    vkCreateDevice := VK_SUCCESS
    vkCreateSwapchainKHR := VK_SUCCESS
    swapChain := 1
    swapChainImages := [1, 2, 3]
    vkCreateImageView := fun _ => VK_SUCCESS
    vkCreateRenderPass := VK_SUCCESS
    vkCreatePipelineLayout := VK_SUCCESS
    vkCreateGraphicsPipelines := VK_SUCCESS }

/-- A 5000 x 5000 window, larger than the maximum of `undefinedExtentCapabilities`. -/
def window5000 : GLFWwindow := { framebufferWidth := 5000, framebufferHeight := 5000 }

/-- Capabilities whose minimum image count is the largest `uint32_t`, with no
upper limit on the count. -/
def wrapCapabilities : VkSurfaceCapabilitiesKHR :=
  { fixedCapabilities with minImageCount := UINT32_MAX, maxImageCount := 0 }

/-- Capabilities whose minimum and maximum image count are both the largest
`uint32_t`. -/
def wrapCappedCapabilities : VkSurfaceCapabilitiesKHR :=
  { fixedCapabilities with minImageCount := UINT32_MAX, maxImageCount := UINT32_MAX }

/-! ## Objects handed to the native calls of context construction -/

/-- The local array `indices` of `initializeVulkanContext`: the two resolved
family indices converted to `uint32_t`, graphics first. -/
def indicesArray (queueFamilyIndices : QueueFamilyIndices) : List Nat :=
  [toUInt32 queueFamilyIndices.graphics, toUInt32 queueFamilyIndices.present]

/-- The fields of `VkDeviceQueueCreateInfo` other than the structure type and
the priority pointer. -/
structure VkDeviceQueueCreateInfo where
  queueFamilyIndex : Nat
  queueCount : Nat
  deriving DecidableEq, Repr

/-- The loop of `initializeVulkanContext` that fills `queueCreateInfos`: one
entry for every element of `indices`, in order. -/
def queueCreateInfos : List Nat → List VkDeviceQueueCreateInfo
  | [] => []
  | index :: rest => { queueFamilyIndex := index, queueCount := 1 } :: queueCreateInfos rest

/-- The fields of `VkDeviceCreateInfo` that `initializeVulkanContext` assigns,
the feature pointer apart. -/
structure VkDeviceCreateInfo where
  pQueueCreateInfos : List VkDeviceQueueCreateInfo
  queueCreateInfoCount : Nat
  enabledExtensionCount : Nat
  ppEnabledExtensionNames : List String
  deriving DecidableEq, Repr

/-- The `VkDeviceCreateInfo` that `initializeVulkanContext` hands to
`vkCreateDevice`; both counts are `ARRAY_LENGTH` of the respective array. -/
def deviceCreateInfo (queueFamilyIndices : QueueFamilyIndices) : VkDeviceCreateInfo :=
  let indices := indicesArray queueFamilyIndices
  { pQueueCreateInfos := queueCreateInfos indices
    queueCreateInfoCount := indices.length
    enabledExtensionCount := deviceExtensions.length
    ppEnabledExtensionNames := deviceExtensions }

/-- The image-view loop of `initializeVulkanContext` on the array
`swapChainImageViews`.  An element is `none` while uninitialised and
`some image` once it holds the view created from `image`.  Every call passes
the array itself as output pointer, which is the address of element 0.  The
result is `none` when a creation fails and the function returns. -/
def imageViewLoop (drv : Driver) : List Nat → List (Option Nat) → Option (List (Option Nat))
  | [], swapChainImageViews => some swapChainImageViews
  | image :: rest, swapChainImageViews =>
    if drv.vkCreateImageView image ≠ VK_SUCCESS then none
    else imageViewLoop drv rest (swapChainImageViews.set 0 (some image))

/-- The array `swapChainImageViews` after the image-view loop, declared with
one uninitialised element per swapchain image. -/
def createImageViews (drv : Driver) (swapChainImages : List Nat) :
    Option (List (Option Nat)) :=
  imageViewLoop drv swapChainImages (List.replicate swapChainImages.length none)

/-- Native calls of `createGraphicsPipeline` that create or destroy an
object; a shader module is named by its handle. -/
inductive NativeCall where
  | vkCreateShaderModule (shaderModule : Nat)
  | vkCreatePipelineLayout
  | vkCreateGraphicsPipelines
  | vkDestroyShaderModule (shaderModule : Nat)
  deriving DecidableEq, Repr

/-- The function `createGraphicsPipeline` with the native calls it makes, in
order, up to its return; `vertShaderModule` and `fragShaderModule` are the
handles that the two `createShaderModule` calls at its start return. -/
def createGraphicsPipelineCalls (drv : Driver) (vertShaderModule fragShaderModule : Nat) :
    Int × List NativeCall :=
  let start := [NativeCall.vkCreateShaderModule vertShaderModule,
    NativeCall.vkCreateShaderModule fragShaderModule, NativeCall.vkCreatePipelineLayout]
  if drv.vkCreatePipelineLayout ≠ VK_SUCCESS then (VK_ERROR_INITIALIZATION_FAILED, start)
  else if drv.vkCreateGraphicsPipelines ≠ VK_SUCCESS then
    (VK_ERROR_INITIALIZATION_FAILED, start ++ [NativeCall.vkCreateGraphicsPipelines])
  else
    (VK_SUCCESS, start ++ [NativeCall.vkCreateGraphicsPipelines,
      NativeCall.vkDestroyShaderModule vertShaderModule,
      NativeCall.vkDestroyShaderModule fragShaderModule])

/-- A device with two queue families, each with the graphics flag and present
support. -/
def deviceTwoFamilies : PhysicalDevice :=
  { deviceA with
    queueFamilies := [{ queueFlags := 1, presentSupport := 1 },
      { queueFlags := 1, presentSupport := 1 }] }

/-- A device whose family 0 does graphics only and family 1 present only. -/
def deviceSplitFamilies : PhysicalDevice :=
  { deviceA with
    queueFamilies := [{ queueFlags := 1, presentSupport := 0 },
      { queueFlags := 0, presentSupport := 1 }] }

/-- Device A on a driver whose every native call succeeds except
`vkCreateRenderPass`. -/
def renderPassFailDriver : Driver :=
  { okDriver [deviceA, deviceB] with vkCreateRenderPass := VK_ERROR_INITIALIZATION_FAILED }

/-- Device A on a driver whose every native call succeeds except
`vkCreatePipelineLayout`. -/
def pipelineLayoutFailDriver : Driver :=
  { okDriver [deviceA, deviceB] with vkCreatePipelineLayout := VK_ERROR_INITIALIZATION_FAILED }

/-- Device A on a driver whose every native call succeeds except
`vkCreateGraphicsPipelines`. -/
def pipelineFailDriver : Driver :=
  { okDriver [deviceA, deviceB] with
    vkCreateGraphicsPipelines := VK_ERROR_INITIALIZATION_FAILED }

/-! ## Auxiliary lemmas -/

theorem cAnd_ne_zero (a b : Nat) : cAnd a b ≠ 0 ↔ a ≠ 0 ∧ b ≠ 0 := by
  unfold cAnd
  by_cases h : a ≠ 0 ∧ b ≠ 0
  · simp [h]
  · simp only [if_neg h]
    simpa using h

theorem toInt32_nonneg (i : Nat) (h : i < 2147483648) : 0 ≤ toInt32 i := by
  unfold toInt32
  have hmod : i % 4294967296 = i := Nat.mod_eq_of_lt (by omega)
  rw [hmod, if_pos h]
  exact Int.natCast_nonneg i

theorem strcmpChars_eq_zero (xs : List Char) :
    ∀ ys : List Char, strcmpChars xs ys = 0 ↔ xs = ys := by
  induction xs with
  | nil =>
    intro ys
    cases ys with
    | nil => simp [strcmpChars]
    | cons b bs => simp [strcmpChars]
  | cons a as ih =>
    intro ys
    cases ys with
    | nil => simp [strcmpChars]
    | cons b bs =>
      simp only [strcmpChars, List.cons.injEq]
      by_cases hab : a = b
      · simp [hab, ih bs]
      · rw [if_neg hab]
        constructor
        · intro h0
          split at h0 <;> simp at h0
        · intro h0
          exact absurd h0.1 hab

theorem strcmp_eq_zero (a b : String) : strcmp a b = 0 ↔ a = b := by
  unfold strcmp
  rw [strcmpChars_eq_zero]
  constructor
  · intro h; exact String.ext h
  · intro h; rw [h]

theorem getQueueFamiliesLoop_graphics_nonneg (qs : List QueueFamily) :
    ∀ (i : Nat) (ind : QueueFamilyIndices), i + qs.length ≤ 2147483648 →
      (0 ≤ (getQueueFamiliesLoop qs i ind).graphics ↔
        (0 ≤ ind.graphics ∨ ∃ q ∈ qs, q.queueFlags &&& VK_QUEUE_GRAPHICS_BIT ≠ 0)) := by
  induction qs with
  | nil => intro i ind _; simp [getQueueFamiliesLoop]
  | cons q rest ih =>
    intro i ind hlen
    simp only [List.length_cons] at hlen
    have hi : 0 ≤ toInt32 i := toInt32_nonneg i (by omega)
    simp only [getQueueFamiliesLoop]
    rw [ih (i + 1) _ (by omega)]
    by_cases hg : q.queueFlags &&& VK_QUEUE_GRAPHICS_BIT ≠ 0 <;>
      by_cases hp : q.presentSupport ≠ 0 <;>
      simp [hg, hp, hi]

theorem getQueueFamiliesLoop_present_nonneg (qs : List QueueFamily) :
    ∀ (i : Nat) (ind : QueueFamilyIndices), i + qs.length ≤ 2147483648 →
      (0 ≤ (getQueueFamiliesLoop qs i ind).present ↔
        (0 ≤ ind.present ∨ ∃ q ∈ qs, q.presentSupport ≠ 0)) := by
  induction qs with
  | nil => intro i ind _; simp [getQueueFamiliesLoop]
  | cons q rest ih =>
    intro i ind hlen
    simp only [List.length_cons] at hlen
    have hi : 0 ≤ toInt32 i := toInt32_nonneg i (by omega)
    simp only [getQueueFamiliesLoop]
    rw [ih (i + 1) _ (by omega)]
    by_cases hg : q.queueFlags &&& VK_QUEUE_GRAPHICS_BIT ≠ 0 <;>
      by_cases hp : q.presentSupport ≠ 0 <;>
      simp [hg, hp, hi]

theorem getQueueFamiliesLoop_graphics_keep (qs : List QueueFamily) :
    ∀ (i : Nat) (ind : QueueFamilyIndices),
      (∀ q ∈ qs, q.queueFlags &&& VK_QUEUE_GRAPHICS_BIT = 0) →
      (getQueueFamiliesLoop qs i ind).graphics = ind.graphics := by
  induction qs with
  | nil => intro i ind _; rfl
  | cons q rest ih =>
    intro i ind hall
    have hq : q.queueFlags &&& VK_QUEUE_GRAPHICS_BIT = 0 := hall q (List.mem_cons_self _ _)
    simp only [getQueueFamiliesLoop]
    rw [ih (i + 1) _ (fun r hr => hall r (List.mem_cons_of_mem _ hr))]
    by_cases hp : q.presentSupport ≠ 0 <;> simp [hq, hp]

theorem getQueueFamiliesLoop_present_keep (qs : List QueueFamily) :
    ∀ (i : Nat) (ind : QueueFamilyIndices),
      (∀ q ∈ qs, q.presentSupport = 0) →
      (getQueueFamiliesLoop qs i ind).present = ind.present := by
  induction qs with
  | nil => intro i ind _; rfl
  | cons q rest ih =>
    intro i ind hall
    have hq : q.presentSupport = 0 := hall q (List.mem_cons_self _ _)
    simp only [getQueueFamiliesLoop]
    rw [ih (i + 1) _ (fun r hr => hall r (List.mem_cons_of_mem _ hr))]
    by_cases hg : q.queueFlags &&& VK_QUEUE_GRAPHICS_BIT ≠ 0 <;> simp [hq, hg]

theorem extensionFound_ne_zero (name : String) (available : List String) :
    extensionFound name available ≠ 0 ↔ name ∈ available := by
  induction available with
  | nil => simp [extensionFound]
  | cons a rest ih =>
    simp only [extensionFound, List.mem_cons]
    by_cases h : strcmp name a = 0
    · have hab : name = a := (strcmp_eq_zero name a).mp h
      simp only [if_pos h]
      simp [hab]
    · have hab : name ≠ a := fun e => h ((strcmp_eq_zero name a).mpr e)
      simp only [if_neg h, ih]
      constructor
      · intro hm; exact Or.inr hm
      · intro hm
        rcases hm with hm | hm
        · exact absurd hm hab
        · exact hm

theorem extensionsSatisfied_ne_zero (required available : List String) :
    extensionsSatisfied required available ≠ 0 ↔ ∀ r ∈ required, r ∈ available := by
  induction required with
  | nil => simp [extensionsSatisfied]
  | cons r rest ih =>
    simp only [extensionsSatisfied, List.forall_mem_cons]
    by_cases h : extensionFound r available = 0
    · have hr : ¬ r ∈ available := fun hm =>
        (extensionFound_ne_zero r available).mpr hm h
      simp [h, hr]
    · have hr : r ∈ available := (extensionFound_ne_zero r available).mp h
      simp only [if_neg h, ih]
      constructor
      · intro hall; exact ⟨hr, hall⟩
      · intro hall; exact hall.2

theorem selectPhysicalDevice_eq_some (devices : List PhysicalDevice) (d : PhysicalDevice) :
    selectPhysicalDevice devices = some d ↔
      ∃ i, devices[i]? = some d ∧ isDeviceSuitable d ≠ 0 ∧
        ∀ j : Nat, j < i → ∀ e, devices[j]? = some e → isDeviceSuitable e = 0 := by
  induction devices with
  | nil => simp [selectPhysicalDevice]
  | cons x rest ih =>
    simp only [selectPhysicalDevice]
    by_cases hx : isDeviceSuitable x ≠ 0
    · simp only [if_pos hx]
      constructor
      · intro h
        have hxd : x = d := Option.some.inj h
        subst hxd
        exact ⟨0, by simp, hx, fun j hj => absurd hj (Nat.not_lt_zero j)⟩
      · rintro ⟨i, hi, _, hbefore⟩
        cases i with
        | zero => simpa using hi
        | succ k =>
          have h0 := hbefore 0 (Nat.succ_pos k) x (by simp)
          exact absurd h0 hx
    · simp only [if_neg hx, ih]
      have hx0 : isDeviceSuitable x = 0 := by simpa using hx
      constructor
      · rintro ⟨i, hi, hd, hbefore⟩
        refine ⟨i + 1, by simpa using hi, hd, ?_⟩
        intro j hj e he
        cases j with
        | zero =>
          have hex : x = e := by simpa using he
          rw [← hex]; exact hx0
        | succ k => exact hbefore k (by omega) e (by simpa using he)
      · rintro ⟨i, hi, hd, hbefore⟩
        cases i with
        | zero =>
          have hxd : x = d := by simpa using hi
          rw [hxd] at hx
          exact absurd hd hx
        | succ k =>
          refine ⟨k, by simpa using hi, hd, ?_⟩
          intro j hj e he
          exact hbefore (j + 1) (by omega) e (by simpa using he)

theorem selectPhysicalDevice_eq_none (devices : List PhysicalDevice) :
    (∀ d ∈ devices, isDeviceSuitable d = 0) → selectPhysicalDevice devices = none := by
  induction devices with
  | nil => intro _; rfl
  | cons x rest ih =>
    intro hall
    have hx : isDeviceSuitable x = 0 := hall x (List.mem_cons_self _ _)
    simp only [selectPhysicalDevice, hx, ne_eq, not_true_eq_false, if_false]
    exact ih (fun d hd => hall d (List.mem_cons_of_mem _ hd))

theorem chooseSwapSurfaceFormatLoop_some (formats : List VkSurfaceFormatKHR)
    (r : VkSurfaceFormatKHR) (h : chooseSwapSurfaceFormatLoop formats = some r) :
    r ∈ formats ∧ r.format = VK_FORMAT_B8G8R8_SRGB ∧
      r.colorSpace = VK_COLOR_SPACE_SRGB_NONLINEAR_KHR := by
  induction formats with
  | nil => simp [chooseSwapSurfaceFormatLoop] at h
  | cons f rest ih =>
    simp only [chooseSwapSurfaceFormatLoop] at h
    by_cases hf : f.format = VK_FORMAT_B8G8R8_SRGB ∧
        f.colorSpace = VK_COLOR_SPACE_SRGB_NONLINEAR_KHR
    · rw [if_pos hf] at h
      have hfr : f = r := Option.some.inj h
      subst hfr
      exact ⟨List.mem_cons_self _ _, hf.1, hf.2⟩
    · rw [if_neg hf] at h
      have hr := ih h
      exact ⟨List.mem_cons_of_mem _ hr.1, hr.2⟩

theorem chooseSwapSurfaceFormatLoop_none (formats : List VkSurfaceFormatKHR) :
    chooseSwapSurfaceFormatLoop formats = none ↔
      ∀ f ∈ formats, ¬ (f.format = VK_FORMAT_B8G8R8_SRGB ∧
        f.colorSpace = VK_COLOR_SPACE_SRGB_NONLINEAR_KHR) := by
  induction formats with
  | nil => simp [chooseSwapSurfaceFormatLoop]
  | cons f rest ih =>
    simp only [chooseSwapSurfaceFormatLoop, List.forall_mem_cons]
    by_cases hf : f.format = VK_FORMAT_B8G8R8_SRGB ∧
        f.colorSpace = VK_COLOR_SPACE_SRGB_NONLINEAR_KHR
    · rw [if_pos hf]
      constructor
      · intro h; cases h
      · intro h; exact absurd hf h.1
    · rw [if_neg hf, ih]
      constructor
      · intro h; exact ⟨hf, h⟩
      · intro h; exact h.2

theorem chooseSwapSurfaceFormat_isSome (formats : List VkSurfaceFormatKHR)
    (hne : formats ≠ []) : ∃ f, chooseSwapSurfaceFormat formats = some f := by
  unfold chooseSwapSurfaceFormat
  cases hloop : chooseSwapSurfaceFormatLoop formats with
  | some f => exact ⟨f, rfl⟩
  | none =>
    cases formats with
    | nil => exact absurd rfl hne
    | cons f rest => exact ⟨f, by simp⟩

theorem swapchainCreateInfo_minImageCount (physicalDevice : PhysicalDevice)
    (window : GLFWwindow) (queueFamilyIndices : QueueFamilyIndices) (indices : List Nat)
    (indexCount : Nat) (hne : physicalDevice.formats ≠ []) :
    ∃ info, swapchainCreateInfo physicalDevice window queueFamilyIndices indices
        indexCount = some info ∧
      info.minImageCount = imageCount physicalDevice.capabilities := by
  obtain ⟨f, hf⟩ := chooseSwapSurfaceFormat_isSome physicalDevice.formats hne
  unfold swapchainCreateInfo
  simp only [querySwapChainSupport, hf]
  exact ⟨_, rfl, rfl⟩

theorem imageCount_no_wrap (capabilities : VkSurfaceCapabilitiesKHR)
    (hmin : capabilities.minImageCount < UINT32_MAX) :
    imageCount capabilities =
      if capabilities.maxImageCount ≠ 0 ∧
          capabilities.minImageCount + 1 > capabilities.maxImageCount
      then capabilities.maxImageCount else capabilities.minImageCount + 1 := by
  unfold UINT32_MAX at hmin
  unfold imageCount
  have hmod : (capabilities.minImageCount + 1) % 4294967296 =
      capabilities.minImageCount + 1 := Nat.mod_eq_of_lt (by omega)
  simp only [hmod]
  by_cases hc : capabilities.maxImageCount > 0 ∧
      capabilities.minImageCount + 1 > capabilities.maxImageCount
  · have hc2 : capabilities.maxImageCount ≠ 0 ∧
        capabilities.minImageCount + 1 > capabilities.maxImageCount :=
      ⟨by omega, hc.2⟩
    rw [if_pos hc, if_pos hc2]
  · have hc2 : ¬ (capabilities.maxImageCount ≠ 0 ∧
        capabilities.minImageCount + 1 > capabilities.maxImageCount) := by
      intro h; exact hc ⟨by omega, h.2⟩
    rw [if_neg hc, if_neg hc2]

theorem toInt32_of_lt (i : Nat) (h : i < 2147483648) : toInt32 i = (i : Int) := by
  unfold toInt32
  have hmod : i % 4294967296 = i := Nat.mod_eq_of_lt (by omega)
  rw [hmod, if_pos h]

theorem toUInt32_natCast (n : Nat) (h : n < 4294967296) : toUInt32 (n : Int) = n := by
  unfold toUInt32
  have hmod : (n : Int) % 4294967296 = (n : Int) :=
    Int.emod_eq_of_lt (Int.natCast_nonneg n) (by omega)
  rw [hmod]
  exact Int.toNat_natCast n

theorem getQueueFamiliesLoop_graphics_last (qs : List QueueFamily) :
    ∀ (k : Nat) (ind : QueueFamilyIndices) (i : Nat) (q : QueueFamily),
      k + qs.length ≤ 2147483648 → qs[i]? = some q →
      q.queueFlags &&& VK_QUEUE_GRAPHICS_BIT ≠ 0 →
      (∀ (j : Nat) (r : QueueFamily), i < j → qs[j]? = some r →
        r.queueFlags &&& VK_QUEUE_GRAPHICS_BIT = 0) →
      (getQueueFamiliesLoop qs k ind).graphics = ((k + i : Nat) : Int) := by
  induction qs with
  | nil => intro k ind i q _ hq; simp at hq
  | cons q0 rest ih =>
    intro k ind i q hlen hq hflag hlater
    simp only [List.length_cons] at hlen
    simp only [getQueueFamiliesLoop]
    cases i with
    | zero =>
      have hq0 : q0 = q := by simpa using hq
      subst hq0
      have hrest : ∀ r ∈ rest, r.queueFlags &&& VK_QUEUE_GRAPHICS_BIT = 0 := by
        intro r hr
        obtain ⟨n, hn, hrn⟩ := List.getElem_of_mem hr
        exact hlater (n + 1) r (Nat.succ_pos n) (by simp [hn, hrn])
      rw [getQueueFamiliesLoop_graphics_keep rest (k + 1) _ hrest]
      have hk : toInt32 k = (k : Int) := toInt32_of_lt k (by omega)
      by_cases hp : q0.presentSupport ≠ 0 <;> simp [hflag, hp, hk]
    | succ n =>
      have hqn : rest[n]? = some q := by simpa using hq
      rw [ih (k + 1) _ n q (by omega) hqn hflag
        (fun j r hj hr => hlater (j + 1) r (by omega) (by simpa using hr))]
      congr 1
      omega

theorem getQueueFamiliesLoop_present_last (qs : List QueueFamily) :
    ∀ (k : Nat) (ind : QueueFamilyIndices) (i : Nat) (q : QueueFamily),
      k + qs.length ≤ 2147483648 → qs[i]? = some q →
      q.presentSupport ≠ 0 →
      (∀ (j : Nat) (r : QueueFamily), i < j → qs[j]? = some r → r.presentSupport = 0) →
      (getQueueFamiliesLoop qs k ind).present = ((k + i : Nat) : Int) := by
  induction qs with
  | nil => intro k ind i q _ hq; simp at hq
  | cons q0 rest ih =>
    intro k ind i q hlen hq hflag hlater
    simp only [List.length_cons] at hlen
    simp only [getQueueFamiliesLoop]
    cases i with
    | zero =>
      have hq0 : q0 = q := by simpa using hq
      subst hq0
      have hrest : ∀ r ∈ rest, r.presentSupport = 0 := by
        intro r hr
        obtain ⟨n, hn, hrn⟩ := List.getElem_of_mem hr
        exact hlater (n + 1) r (Nat.succ_pos n) (by simp [hn, hrn])
      rw [getQueueFamiliesLoop_present_keep rest (k + 1) _ hrest]
      have hk : toInt32 k = (k : Int) := toInt32_of_lt k (by omega)
      by_cases hg : q0.queueFlags &&& VK_QUEUE_GRAPHICS_BIT ≠ 0 <;> simp [hflag, hg, hk]
    | succ n =>
      have hqn : rest[n]? = some q := by simpa using hq
      rw [ih (k + 1) _ n q (by omega) hqn hflag
        (fun j r hj hr => hlater (j + 1) r (by omega) (by simpa using hr))]
      congr 1
      omega

theorem imageViewLoop_isSome (drv : Driver) (images : List Nat) :
    ∀ views : List (Option Nat),
      (imageViewLoop drv images views).isSome = imageViewsCreated drv images := by
  induction images with
  | nil => intro views; rfl
  | cons image rest ih =>
    intro views
    simp only [imageViewLoop, imageViewsCreated]
    by_cases h : drv.vkCreateImageView image ≠ VK_SUCCESS
    · simp [h]
    · simp only [if_neg h]
      exact ih _

theorem imageViewsCreated_congr (drv1 drv2 : Driver)
    (h : drv1.vkCreateImageView = drv2.vkCreateImageView) (images : List Nat) :
    imageViewsCreated drv1 images = imageViewsCreated drv2 images := by
  induction images with
  | nil => rfl
  | cons image rest ih => simp only [imageViewsCreated, h, ih]

theorem createGraphicsPipelineCalls_result (drv : Driver) (vert frag : Nat) :
    (createGraphicsPipelineCalls drv vert frag).1 = createGraphicsPipeline drv := by
  unfold createGraphicsPipelineCalls createGraphicsPipeline
  split_ifs <;> rfl

/-! ## Device selection -/

/-- C1: `isDeviceSuitable` accepts a device whose surface-format list and
present-mode list are both empty (`formatsCount = 0`, `presentModesCount = 0`):
the adequacy test reads the sizes of two pointers, never the counts, so the
verdict of every device is the same as with both lists emptied. -/
theorem isDeviceSuitable_accepts_empty_swapchain_support :
    isDeviceSuitable deviceNoSwapChainSupport = 1 ∧
    (querySwapChainSupport deviceNoSwapChainSupport).formatsCount = 0 ∧
    (querySwapChainSupport deviceNoSwapChainSupport).presentModesCount = 0 ∧
    ∀ device : PhysicalDevice,
      isDeviceSuitable { device with formats := [], presentModes := [] } =
        isDeviceSuitable device := by
  refine ⟨by decide, rfl, rfl, fun device => rfl⟩

/-- C2: the selection loop returns exactly the device at the smallest
enumeration index for which `isDeviceSuitable` is non-zero; with an empty
device list, or with no suitable device, `initializeVulkanContext` returns
`VULKAN_CONTEXT_FAILURE`; on the list `[deviceA, deviceB]` device A is chosen,
with resolved indices graphics = present = 0. -/
theorem selectPhysicalDevice_first_suitable (drv : Driver) (window : GLFWwindow) :
    (∀ d, selectPhysicalDevice drv.physicalDevices = some d ↔
      ∃ i, drv.physicalDevices[i]? = some d ∧ isDeviceSuitable d ≠ 0 ∧
        ∀ j : Nat, j < i → ∀ e, drv.physicalDevices[j]? = some e → isDeviceSuitable e = 0) ∧
    ((drv.physicalDevices = [] ∨ ∀ d ∈ drv.physicalDevices, isDeviceSuitable d = 0) →
      initializeVulkanContext drv window = some VULKAN_CONTEXT_FAILURE) ∧
    (selectPhysicalDevice [deviceA, deviceB] = some deviceA ∧
      isDeviceSuitable deviceB = 0 ∧
      getQueueFamilies deviceA = { graphics := 0, present := 0 }) := by
  refine ⟨fun d => selectPhysicalDevice_eq_some drv.physicalDevices d, ?_, by decide⟩
  intro h
  have hnone : selectPhysicalDevice drv.physicalDevices = none := by
    rcases h with h | h
    · rw [h]; rfl
    · exact selectPhysicalDevice_eq_none _ h
  unfold initializeVulkanContext
  rw [hnone]
  cases drv.glfwRequiredInstanceExtensions with
  | none => rfl
  | some exts =>
    simp only []
    split_ifs <;> rfl

/-- Witness for C2: on an all-succeeding driver with no device, and on one whose
only device is B, context construction fails. -/
theorem selectPhysicalDevice_first_suitable_witness :
    initializeVulkanContext (okDriver []) window800 = some VULKAN_CONTEXT_FAILURE ∧
    initializeVulkanContext (okDriver [deviceB]) window800 = some VULKAN_CONTEXT_FAILURE ∧
    initializeVulkanContext (okDriver [deviceA, deviceB]) window800 =
      some VULKAN_CONTEXT_SUCCESS :=
  ⟨(selectPhysicalDevice_first_suitable (okDriver []) window800).2.1 (Or.inl rfl),
   (selectPhysicalDevice_first_suitable (okDriver [deviceB]) window800).2.1
     (Or.inr (by decide)),
   by decide⟩

/-- C3: for a device whose family count fits `int32_t` indices, the graphics
index returned by `getQueueFamilies` is non-negative iff some family has the
graphics flag, the present index is non-negative iff some family reports
present support, and a capability absent from every family leaves its field
at -1. -/
theorem getQueueFamilies_set_iff (device : PhysicalDevice)
    (hcount : device.queueFamilies.length ≤ 2147483648) :
    (0 ≤ (getQueueFamilies device).graphics ↔
      ∃ q ∈ device.queueFamilies, q.queueFlags &&& VK_QUEUE_GRAPHICS_BIT ≠ 0) ∧
    (0 ≤ (getQueueFamilies device).present ↔
      ∃ q ∈ device.queueFamilies, q.presentSupport ≠ 0) ∧
    ((∀ q ∈ device.queueFamilies, q.queueFlags &&& VK_QUEUE_GRAPHICS_BIT = 0) →
      (getQueueFamilies device).graphics = -1) ∧
    ((∀ q ∈ device.queueFamilies, q.presentSupport = 0) →
      (getQueueFamilies device).present = -1) := by
  unfold getQueueFamilies
  refine ⟨?_, ?_, ?_, ?_⟩
  · rw [getQueueFamiliesLoop_graphics_nonneg _ 0 _ (by omega)]
    simp
  · rw [getQueueFamiliesLoop_present_nonneg _ 0 _ (by omega)]
    simp
  · intro h
    rw [getQueueFamiliesLoop_graphics_keep _ 0 _ h]
  · intro h
    rw [getQueueFamiliesLoop_present_keep _ 0 _ h]

/-- Witness for C3: device B has a graphics family and no present family, so
its graphics index is set and its present index is -1. -/
theorem getQueueFamilies_set_iff_witness :
    0 ≤ (getQueueFamilies deviceB).graphics ∧ (getQueueFamilies deviceB).present = -1 :=
  ⟨(getQueueFamilies_set_iff deviceB (by decide)).1.mpr
      ⟨{ queueFlags := 1, presentSupport := 0 }, by decide, by decide⟩,
   (getQueueFamilies_set_iff deviceB (by decide)).2.2.2 (by decide)⟩

/-- C4: the subset loop of `checkDeviceExtensionSupport` answers non-zero iff
every required name is equal, as a string, to some available name; so does the
function itself for the required list `deviceExtensions`; a longer name with
the required one as prefix, or the same name in another case, does not count. -/
theorem checkDeviceExtensionSupport_iff_subset :
    (∀ required available : List String,
      extensionsSatisfied required available ≠ 0 ↔ ∀ r ∈ required, r ∈ available) ∧
    (∀ device : PhysicalDevice,
      checkDeviceExtensionSupport device ≠ 0 ↔
        ∀ r ∈ deviceExtensions, r ∈ device.availableExtensions) ∧
    extensionsSatisfied ["VK_KHR_swapchain"]
      ["VK_KHR_swapchain_mutable_format", "vk_khr_swapchain", "VK_KHR_swapchai"] = 0 := by
  refine ⟨extensionsSatisfied_ne_zero, fun device => ?_, by decide⟩
  exact extensionsSatisfied_ne_zero deviceExtensions device.availableExtensions

/-! ## Swapchain configuration -/

/-- C5: with the undefined current extent, limits 100..1000 on both axes and
a 50 x 50 drawable area, `chooseSwapExtent` returns 50 x 50, below the minimum
on both axes: the result of the comparison with the minimum is overwritten by
the comparison of the unclamped value with the maximum.  A 5000 x 5000 area
is brought down to the maximum. -/
theorem chooseSwapExtent_below_minimum :
    undefinedExtentCapabilities.currentExtent.width = UINT32_MAX ∧
    undefinedExtentCapabilities.minImageExtent.width ≤
      undefinedExtentCapabilities.maxImageExtent.width ∧
    undefinedExtentCapabilities.minImageExtent.height ≤
      undefinedExtentCapabilities.maxImageExtent.height ∧
    chooseSwapExtent undefinedExtentCapabilities window50 = { width := 50, height := 50 } ∧
    (chooseSwapExtent undefinedExtentCapabilities window50).width <
      undefinedExtentCapabilities.minImageExtent.width ∧
    (chooseSwapExtent undefinedExtentCapabilities window50).height <
      undefinedExtentCapabilities.minImageExtent.height ∧
    chooseSwapExtent undefinedExtentCapabilities window5000 =
      { width := 1000, height := 1000 } := by
  decide

/-- C6, counterexample: for a record with `minImageCount = UINT32_MAX` and
`maxImageCount = 0` (admitted by the claim), `minImageCount + 1` wraps to 0 in
32-bit arithmetic and `createSwapChain` passes 0, below the minimum. -/
theorem imageCount_wraps_below_minimum :
    wrapCapabilities.minImageCount ≤ UINT32_MAX ∧
    wrapCapabilities.maxImageCount = 0 ∧
    imageCount wrapCapabilities = 0 ∧
    ¬ (wrapCapabilities.minImageCount ≤ imageCount wrapCapabilities) ∧
    (swapchainCreateInfo { deviceA with capabilities := wrapCapabilities } window800
        { graphics := 0, present := 0 } [0, 0] 2).map (fun info => info.minImageCount) =
      some 0 := by
  decide

/-- C6, amended: when `minImageCount < UINT32_MAX` (the sum `minImageCount + 1`
does not wrap) and `maxImageCount = 0` or `minImageCount ≤ maxImageCount`, the
image count is at least `minImageCount` and, for a non-zero `maxImageCount`,
at most `maxImageCount`; it is the `minImageCount` field of the create info
that `createSwapChain` builds for a device with a surface format. -/
theorem createSwapChain_imageCount_in_range (physicalDevice : PhysicalDevice)
    (window : GLFWwindow) (queueFamilyIndices : QueueFamilyIndices) (indices : List Nat)
    (indexCount : Nat)
    (hmin : physicalDevice.capabilities.minImageCount < UINT32_MAX)
    (hrec : physicalDevice.capabilities.maxImageCount = 0 ∨
      physicalDevice.capabilities.minImageCount ≤ physicalDevice.capabilities.maxImageCount) :
    (physicalDevice.capabilities.minImageCount ≤ imageCount physicalDevice.capabilities ∧
      (physicalDevice.capabilities.maxImageCount ≠ 0 →
        imageCount physicalDevice.capabilities ≤
          physicalDevice.capabilities.maxImageCount)) ∧
    (physicalDevice.formats ≠ [] →
      ∃ info, swapchainCreateInfo physicalDevice window queueFamilyIndices indices
          indexCount = some info ∧
        physicalDevice.capabilities.minImageCount ≤ info.minImageCount ∧
        (physicalDevice.capabilities.maxImageCount ≠ 0 →
          info.minImageCount ≤ physicalDevice.capabilities.maxImageCount)) := by
  have hbounds : physicalDevice.capabilities.minImageCount ≤
        imageCount physicalDevice.capabilities ∧
      (physicalDevice.capabilities.maxImageCount ≠ 0 →
        imageCount physicalDevice.capabilities ≤
          physicalDevice.capabilities.maxImageCount) := by
    rw [imageCount_no_wrap _ hmin]
    split_ifs with hc
    · exact ⟨by omega, fun _ => Nat.le_refl _⟩
    · refine ⟨by omega, fun hmax => ?_⟩
      by_contra hgt
      exact hc ⟨hmax, by omega⟩
  refine ⟨hbounds, fun hne => ?_⟩
  obtain ⟨info, hinfo, hcount⟩ := swapchainCreateInfo_minImageCount physicalDevice window
    queueFamilyIndices indices indexCount hne
  exact ⟨info, hinfo, by rw [hcount]; exact hbounds.1, by rw [hcount]; exact hbounds.2⟩

/-- Witness for C6: device A reports 2..8 images and one surface format; the
count passed is within 2..8. -/
theorem createSwapChain_imageCount_in_range_witness :
    2 ≤ imageCount deviceA.capabilities ∧ imageCount deviceA.capabilities ≤ 8 ∧
    ∃ info, swapchainCreateInfo deviceA window800 { graphics := 0, present := 0 } [0, 0]
        2 = some info ∧ 2 ≤ info.minImageCount :=
  have h := createSwapChain_imageCount_in_range deviceA window800
    { graphics := 0, present := 0 } [0, 0] 2 (by decide) (Or.inr (by decide))
  ⟨h.1.1, h.1.2 (by decide),
    (h.2 (by decide)).elim fun info hinfo => ⟨info, hinfo.1, hinfo.2.1⟩⟩

/-- C7: on a non-empty list, `chooseSwapSurfaceFormat` returns an entry of the
list with format `VK_FORMAT_B8G8R8_SRGB` and colour space
`VK_COLOR_SPACE_SRGB_NONLINEAR_KHR` whenever the list has such an entry at any
position, and the first entry of the list when it has none. -/
theorem chooseSwapSurfaceFormat_preferred_or_first (formats : List VkSurfaceFormatKHR)
    (hne : formats ≠ []) :
    ((∃ f ∈ formats, f.format = VK_FORMAT_B8G8R8_SRGB ∧
        f.colorSpace = VK_COLOR_SPACE_SRGB_NONLINEAR_KHR) →
      ∃ r, chooseSwapSurfaceFormat formats = some r ∧ r ∈ formats ∧
        r.format = VK_FORMAT_B8G8R8_SRGB ∧
        r.colorSpace = VK_COLOR_SPACE_SRGB_NONLINEAR_KHR) ∧
    ((∀ f ∈ formats, ¬ (f.format = VK_FORMAT_B8G8R8_SRGB ∧
        f.colorSpace = VK_COLOR_SPACE_SRGB_NONLINEAR_KHR)) →
      chooseSwapSurfaceFormat formats = some (formats.head hne)) := by
  constructor
  · rintro ⟨f, hf, hpref⟩
    cases hloop : chooseSwapSurfaceFormatLoop formats with
    | none =>
      exact absurd hpref ((chooseSwapSurfaceFormatLoop_none formats).mp hloop f hf)
    | some r =>
      refine ⟨r, ?_, chooseSwapSurfaceFormatLoop_some formats r hloop⟩
      unfold chooseSwapSurfaceFormat
      rw [hloop]
  · intro hnone
    have hloop := (chooseSwapSurfaceFormatLoop_none formats).mpr hnone
    unfold chooseSwapSurfaceFormat
    rw [hloop]
    cases formats with
    | nil => exact absurd rfl hne
    | cons f rest => simp

/-- Witness for C7: the preferred pair in third position is returned; a list
without it yields its first entry. -/
theorem chooseSwapSurfaceFormat_preferred_or_first_witness :
    (∃ r, chooseSwapSurfaceFormat
        [{ format := 44, colorSpace := 0 }, { format := 36, colorSpace := 7 },
         { format := 36, colorSpace := 0 }] = some r ∧
      r.format = VK_FORMAT_B8G8R8_SRGB ∧
      r.colorSpace = VK_COLOR_SPACE_SRGB_NONLINEAR_KHR) ∧
    chooseSwapSurfaceFormat
        [{ format := 44, colorSpace := 0 }, { format := 36, colorSpace := 7 }] =
      some { format := 44, colorSpace := 0 } :=
  ⟨((chooseSwapSurfaceFormat_preferred_or_first
        [{ format := 44, colorSpace := 0 }, { format := 36, colorSpace := 7 },
         { format := 36, colorSpace := 0 }] (by decide)).1
        ⟨{ format := 36, colorSpace := 0 }, by decide, by decide⟩).elim
      fun r hr => ⟨r, hr.1, hr.2.2⟩,
   (chooseSwapSurfaceFormat_preferred_or_first
        [{ format := 44, colorSpace := 0 }, { format := 36, colorSpace := 7 }]
        (by decide)).2 (by decide)⟩

/-- C8: `chooseSwapPresentMode` returns `VK_PRESENT_MODE_MAILBOX_KHR` when the
list contains it and `VK_PRESENT_MODE_FIFO_KHR` otherwise, also for the empty
list and for a non-empty list that lacks FIFO. -/
theorem chooseSwapPresentMode_mailbox_else_fifo (presentModes : List Nat) :
    chooseSwapPresentMode presentModes =
      (if VK_PRESENT_MODE_MAILBOX_KHR ∈ presentModes then VK_PRESENT_MODE_MAILBOX_KHR
       else VK_PRESENT_MODE_FIFO_KHR) ∧
    chooseSwapPresentMode [] = VK_PRESENT_MODE_FIFO_KHR ∧
    chooseSwapPresentMode [0, 3] = VK_PRESENT_MODE_FIFO_KHR := by
  refine ⟨?_, rfl, by decide⟩
  induction presentModes with
  | nil => simp [chooseSwapPresentMode]
  | cons m rest ih =>
    simp only [chooseSwapPresentMode, List.mem_cons]
    by_cases hm : m = VK_PRESENT_MODE_MAILBOX_KHR
    · simp [hm]
    · have hm2 : ¬ VK_PRESENT_MODE_MAILBOX_KHR = m := fun e => hm e.symm
      simp only [if_neg hm, ih, hm2, false_or]

/-- C9: when `currentExtent.width` is not the undefined value `UINT32_MAX`,
`chooseSwapExtent` returns `capabilities.currentExtent` unchanged, whatever the
window reports. -/
theorem chooseSwapExtent_current (capabilities : VkSurfaceCapabilitiesKHR)
    (window : GLFWwindow) (hconcrete : capabilities.currentExtent.width ≠ UINT32_MAX) :
    chooseSwapExtent capabilities window = capabilities.currentExtent := by
  unfold chooseSwapExtent
  rw [if_pos hconcrete]

/-- Witness for C9: an 800 x 600 current extent is returned for a 50 x 50
window. -/
theorem chooseSwapExtent_current_witness :
    chooseSwapExtent fixedCapabilities window50 = { width := 800, height := 600 } :=
  chooseSwapExtent_current fixedCapabilities window50 (by decide)

/-- C10, counterexample: for `minImageCount = maxImageCount = UINT32_MAX` the
sum `minImageCount + 1` exceeds the non-zero `maxImageCount`, yet the count
requested is 0 and not `maxImageCount`: the 32-bit sum wrapped to 0. -/
theorem imageCount_wraps_not_capped :
    wrapCappedCapabilities.maxImageCount ≠ 0 ∧
    wrapCappedCapabilities.minImageCount + 1 > wrapCappedCapabilities.maxImageCount ∧
    imageCount wrapCappedCapabilities = 0 ∧
    imageCount wrapCappedCapabilities ≠ wrapCappedCapabilities.maxImageCount ∧
    imageCount wrapCappedCapabilities ≠ wrapCappedCapabilities.minImageCount + 1 := by
  decide

/-- C10, amended: for every record with `minImageCount < UINT32_MAX` the image
count is `minImageCount + 1`, except that a non-zero `maxImageCount` exceeded
by `minImageCount + 1` is taken instead; it is the `minImageCount` field of
the create info built for a device with a surface format; (min 2, max 0)
gives 3 and (min 2, max 2) gives 2. -/
theorem createSwapChain_imageCount_eq (physicalDevice : PhysicalDevice)
    (window : GLFWwindow) (queueFamilyIndices : QueueFamilyIndices) (indices : List Nat)
    (indexCount : Nat)
    (hmin : physicalDevice.capabilities.minImageCount < UINT32_MAX) :
    imageCount physicalDevice.capabilities =
      (if physicalDevice.capabilities.maxImageCount ≠ 0 ∧
          physicalDevice.capabilities.minImageCount + 1 >
            physicalDevice.capabilities.maxImageCount
       then physicalDevice.capabilities.maxImageCount
       else physicalDevice.capabilities.minImageCount + 1) ∧
    (physicalDevice.formats ≠ [] →
      ∃ info, swapchainCreateInfo physicalDevice window queueFamilyIndices indices
          indexCount = some info ∧
        info.minImageCount = imageCount physicalDevice.capabilities) ∧
    imageCount { fixedCapabilities with minImageCount := 2, maxImageCount := 0 } = 3 ∧
    imageCount { fixedCapabilities with minImageCount := 2, maxImageCount := 2 } = 2 := by
  refine ⟨imageCount_no_wrap _ hmin, fun hne => ?_, by decide, by decide⟩
  exact swapchainCreateInfo_minImageCount physicalDevice window queueFamilyIndices indices
    indexCount hne

/-- Witness for C10: device A (min 2, max 8, one surface format) is asked for
3 images. -/
theorem createSwapChain_imageCount_eq_witness :
    imageCount deviceA.capabilities = 3 ∧
    ∃ info, swapchainCreateInfo deviceA window800 { graphics := 0, present := 0 } [0, 0]
        2 = some info ∧ info.minImageCount = imageCount deviceA.capabilities :=
  have h := createSwapChain_imageCount_eq deviceA window800
    { graphics := 0, present := 0 } [0, 0] 2 (by decide)
  ⟨h.1.trans (by decide), h.2.1 (by decide)⟩

/-! ## Logical device, swapchain sharing, pipeline and image views -/

/-- C11: for resolved indices (graphics, present) and the index array that
`initializeVulkanContext` passes, the create info built by `createSwapChain`
has concurrent sharing with index count 2 and index array exactly
[graphics, present] when graphics ≠ present, and exclusive sharing with index
count 0 and no index array when graphics = present. -/
theorem createSwapChain_sharing_mode (physicalDevice : PhysicalDevice)
    (window : GLFWwindow) (graphics present : Nat)
    (hg : graphics < 2147483648) (hp : present < 2147483648)
    (hfmt : physicalDevice.formats ≠ []) :
    ∃ info,
      swapchainCreateInfo physicalDevice window
          { graphics := (graphics : Int), present := (present : Int) }
          (indicesArray { graphics := (graphics : Int), present := (present : Int) })
          (indicesArray { graphics := (graphics : Int), present := (present : Int) }).length =
        some info ∧
      (graphics ≠ present →
        info.imageSharingMode = VK_SHARING_MODE_CONCURRENT ∧
        info.queueFamilyIndexCount = 2 ∧
        info.pQueueFamilyIndices = [graphics, present]) ∧
      (graphics = present →
        info.imageSharingMode = VK_SHARING_MODE_EXCLUSIVE ∧
        info.queueFamilyIndexCount = 0 ∧
        info.pQueueFamilyIndices = []) := by
  obtain ⟨f, hf⟩ := chooseSwapSurfaceFormat_isSome physicalDevice.formats hfmt
  have hgu : toUInt32 (graphics : Int) = graphics := toUInt32_natCast graphics (by omega)
  have hpu : toUInt32 (present : Int) = present := toUInt32_natCast present (by omega)
  unfold swapchainCreateInfo
  simp only [querySwapChainSupport, hf, indicesArray, hgu, hpu]
  refine ⟨_, rfl, ?_, ?_⟩
  · intro hne
    have hne2 : ¬ ((graphics : Int) = (present : Int)) := fun h => hne (Int.ofNat.inj h)
    simp [hne2]
  · intro heq
    simp [heq]

/-- Witness for C11: device A with indices (0, 1) gets concurrent sharing over
[0, 1]; with indices (0, 0) exclusive sharing and no index array. -/
theorem createSwapChain_sharing_mode_witness :
    (∃ info, swapchainCreateInfo deviceA window800 { graphics := 0, present := 1 }
        [0, 1] 2 = some info ∧
      info.imageSharingMode = VK_SHARING_MODE_CONCURRENT ∧
      info.queueFamilyIndexCount = 2 ∧ info.pQueueFamilyIndices = [0, 1]) ∧
    (∃ info, swapchainCreateInfo deviceA window800 { graphics := 0, present := 0 }
        [0, 0] 2 = some info ∧
      info.imageSharingMode = VK_SHARING_MODE_EXCLUSIVE ∧
      info.queueFamilyIndexCount = 0 ∧ info.pQueueFamilyIndices = []) :=
  ⟨(createSwapChain_sharing_mode deviceA window800 0 1 (by decide) (by decide)
      (by decide)).elim fun info h => ⟨info, h.1, h.2.1 (by decide)⟩,
   (createSwapChain_sharing_mode deviceA window800 0 0 (by decide) (by decide)
      (by decide)).elim fun info h => ⟨info, h.1, h.2.2 rfl⟩⟩

/-- C12, counterexample: device A is suitable with graphics = present = 0, and
the queue-create list handed to `vkCreateDevice` for it has two entries (count
2), both with `queueFamilyIndex` 0. -/
theorem deviceCreateInfo_duplicate_entry :
    isDeviceSuitable deviceA ≠ 0 ∧
    getQueueFamilies deviceA = { graphics := 0, present := 0 } ∧
    (deviceCreateInfo (getQueueFamilies deviceA)).queueCreateInfoCount = 2 ∧
    (deviceCreateInfo (getQueueFamilies deviceA)).pQueueCreateInfos =
      [{ queueFamilyIndex := 0, queueCount := 1 }, { queueFamilyIndex := 0, queueCount := 1 }] ∧
    ¬ ((deviceCreateInfo (getQueueFamilies deviceA)).pQueueCreateInfos.map
        (fun entry => entry.queueFamilyIndex)).Nodup := by
  decide

/-- C12, amended: for resolved indices (graphics, present) the queue-create
list handed to `vkCreateDevice` always has exactly two entries, the first for
the graphics index and the second for the present index, each asking for one
queue; their `queueFamilyIndex` values are distinct when graphics ≠ present
and equal when graphics = present. -/
theorem deviceCreateInfo_two_entries (graphics present : Nat)
    (hg : graphics < 2147483648) (hp : present < 2147483648) :
    (deviceCreateInfo { graphics := (graphics : Int), present := (present : Int) }
      ).queueCreateInfoCount = 2 ∧
    (deviceCreateInfo { graphics := (graphics : Int), present := (present : Int) }
      ).pQueueCreateInfos =
      [{ queueFamilyIndex := graphics, queueCount := 1 },
       { queueFamilyIndex := present, queueCount := 1 }] ∧
    (graphics ≠ present →
      ((deviceCreateInfo { graphics := (graphics : Int), present := (present : Int) }
        ).pQueueCreateInfos.map (fun entry => entry.queueFamilyIndex)).Nodup) ∧
    (graphics = present →
      (deviceCreateInfo { graphics := (graphics : Int), present := (present : Int) }
        ).pQueueCreateInfos =
        [{ queueFamilyIndex := graphics, queueCount := 1 },
         { queueFamilyIndex := graphics, queueCount := 1 }]) := by
  have hgu : toUInt32 (graphics : Int) = graphics := toUInt32_natCast graphics (by omega)
  have hpu : toUInt32 (present : Int) = present := toUInt32_natCast present (by omega)
  have hlist : (deviceCreateInfo { graphics := (graphics : Int), present := (present : Int) }
      ).pQueueCreateInfos =
      [{ queueFamilyIndex := graphics, queueCount := 1 },
       { queueFamilyIndex := present, queueCount := 1 }] := by
    simp only [deviceCreateInfo, indicesArray, queueCreateInfos, hgu, hpu]
  refine ⟨rfl, hlist, ?_, ?_⟩
  · intro hne
    rw [hlist]
    simpa using hne
  · intro heq
    rw [hlist, heq]

/-- Witness for C12: indices (0, 1) give the two entries for families 0 and 1. -/
theorem deviceCreateInfo_two_entries_witness :
    (deviceCreateInfo { graphics := 0, present := 1 }).queueCreateInfoCount = 2 ∧
    (deviceCreateInfo { graphics := 0, present := 1 }).pQueueCreateInfos =
      [{ queueFamilyIndex := 0, queueCount := 1 }, { queueFamilyIndex := 1, queueCount := 1 }] :=
  have h := deviceCreateInfo_two_entries 0 1 (by decide) (by decide)
  ⟨h.1, h.2.1⟩

/-- C13: on a driver where every earlier stage succeeds and
`vkCreateRenderPass` fails, `createRenderPass` returns an error and
`initializeVulkanContext` still returns `VULKAN_CONTEXT_SUCCESS`; the same for
a failing `vkCreatePipelineLayout` and a failing `vkCreateGraphicsPipelines`.
The returned status never depends on these three results. -/
theorem initializeVulkanContext_ignores_pipeline_failure :
    (createRenderPass renderPassFailDriver = VK_ERROR_INITIALIZATION_FAILED ∧
      initializeVulkanContext renderPassFailDriver window800 =
        some VULKAN_CONTEXT_SUCCESS) ∧
    (createGraphicsPipeline pipelineLayoutFailDriver = VK_ERROR_INITIALIZATION_FAILED ∧
      initializeVulkanContext pipelineLayoutFailDriver window800 =
        some VULKAN_CONTEXT_SUCCESS) ∧
    (createGraphicsPipeline pipelineFailDriver = VK_ERROR_INITIALIZATION_FAILED ∧
      initializeVulkanContext pipelineFailDriver window800 =
        some VULKAN_CONTEXT_SUCCESS) ∧
    ∀ (drv : Driver) (window : GLFWwindow) (renderPassResult layoutResult pipelineResult : Int),
      initializeVulkanContext
          { drv with
            vkCreateRenderPass := renderPassResult
            vkCreatePipelineLayout := layoutResult
            vkCreateGraphicsPipelines := pipelineResult } window =
        initializeVulkanContext drv window := by
  refine ⟨by decide, by decide, by decide, ?_⟩
  intro drv window r l p
  have hviews := imageViewsCreated_congr
    { drv with vkCreateRenderPass := r, vkCreatePipelineLayout := l,
               vkCreateGraphicsPipelines := p } drv rfl drv.swapChainImages
  unfold initializeVulkanContext createSwapChain
  simp only [hviews]

/-- C14: with shader modules 1 (vertex) and 2 (fragment) created at the start,
`createGraphicsPipeline` returns an error without any `vkDestroyShaderModule`
call when pipeline-layout creation fails and when pipeline creation fails;
only the successful path destroys both modules. -/
theorem createGraphicsPipeline_leaks_shader_modules :
    (createGraphicsPipelineCalls pipelineLayoutFailDriver 1 2 =
      (VK_ERROR_INITIALIZATION_FAILED,
        [NativeCall.vkCreateShaderModule 1, NativeCall.vkCreateShaderModule 2,
         NativeCall.vkCreatePipelineLayout])) ∧
    (createGraphicsPipelineCalls pipelineFailDriver 1 2 =
      (VK_ERROR_INITIALIZATION_FAILED,
        [NativeCall.vkCreateShaderModule 1, NativeCall.vkCreateShaderModule 2,
         NativeCall.vkCreatePipelineLayout, NativeCall.vkCreateGraphicsPipelines])) ∧
    NativeCall.vkDestroyShaderModule 1 ∉
      (createGraphicsPipelineCalls pipelineLayoutFailDriver 1 2).2 ∧
    NativeCall.vkDestroyShaderModule 2 ∉
      (createGraphicsPipelineCalls pipelineFailDriver 1 2).2 ∧
    (createGraphicsPipelineCalls (okDriver [deviceA]) 1 2 =
      (VK_SUCCESS,
        [NativeCall.vkCreateShaderModule 1, NativeCall.vkCreateShaderModule 2,
         NativeCall.vkCreatePipelineLayout, NativeCall.vkCreateGraphicsPipelines,
         NativeCall.vkDestroyShaderModule 1, NativeCall.vkDestroyShaderModule 2])) := by
  decide

/-- C15, counterexample: with two families that both have the graphics flag
and present support, `getQueueFamilies` returns index 1 for both fields, not
the smallest qualifying index 0. -/
theorem getQueueFamilies_not_smallest :
    deviceTwoFamilies.queueFamilies[0]? = some { queueFlags := 1, presentSupport := 1 } ∧
    (1 : Nat) &&& VK_QUEUE_GRAPHICS_BIT ≠ 0 ∧
    getQueueFamilies deviceTwoFamilies = { graphics := 1, present := 1 } ∧
    (getQueueFamilies deviceTwoFamilies).graphics ≠ 0 ∧
    (getQueueFamilies deviceTwoFamilies).present ≠ 0 := by
  decide

/-- C15, amended: for a device whose family count fits `int32_t` indices, the
graphics index returned by `getQueueFamilies` is the largest index whose flags
include the graphics capability (when one exists), and the present index is,
independently, the largest index that reports present support (when one
exists). -/
theorem getQueueFamilies_largest_index (device : PhysicalDevice)
    (hcount : device.queueFamilies.length ≤ 2147483648) :
    (∀ (i : Nat) (q : QueueFamily), device.queueFamilies[i]? = some q →
      q.queueFlags &&& VK_QUEUE_GRAPHICS_BIT ≠ 0 →
      (∀ (j : Nat) (r : QueueFamily), i < j → device.queueFamilies[j]? = some r →
        r.queueFlags &&& VK_QUEUE_GRAPHICS_BIT = 0) →
      (getQueueFamilies device).graphics = (i : Int)) ∧
    (∀ (i : Nat) (q : QueueFamily), device.queueFamilies[i]? = some q →
      q.presentSupport ≠ 0 →
      (∀ (j : Nat) (r : QueueFamily), i < j → device.queueFamilies[j]? = some r →
        r.presentSupport = 0) →
      (getQueueFamilies device).present = (i : Int)) := by
  unfold getQueueFamilies
  constructor
  · intro i q hq hflag hlater
    rw [getQueueFamiliesLoop_graphics_last _ 0 _ i q (by omega) hq hflag hlater]
    simp
  · intro i q hq hflag hlater
    rw [getQueueFamiliesLoop_present_last _ 0 _ i q (by omega) hq hflag hlater]
    simp

/-- Witness for C15: with graphics only on family 0 and present only on
family 1 the indices are 0 and 1. -/
theorem getQueueFamilies_largest_index_witness :
    (getQueueFamilies deviceSplitFamilies).graphics = 0 ∧
    (getQueueFamilies deviceSplitFamilies).present = 1 :=
  have h := getQueueFamilies_largest_index deviceSplitFamilies (by decide)
  ⟨h.1 0 { queueFlags := 1, presentSupport := 0 } (by decide) (by decide)
      (fun j r hj hr => by
        cases j with
        | zero => exact absurd hj (Nat.lt_irrefl 0)
        | succ n =>
          cases n with
          | zero =>
            have hr1 : r = { queueFlags := 0, presentSupport := 1 } := by
              simpa [deviceSplitFamilies] using hr.symm
            rw [hr1]; decide
          | succ m => simp [deviceSplitFamilies] at hr),
   h.2 1 { queueFlags := 0, presentSupport := 1 } (by decide) (by decide)
      (fun j r hj hr => by
        cases j with
        | zero => exact absurd hj (Nat.not_lt_zero 1)
        | succ n =>
          cases n with
          | zero => exact absurd hj (Nat.lt_irrefl 1)
          | succ m => simp [deviceSplitFamilies] at hr)⟩

/-- C16: with three swapchain images 1, 2, 3 and every `vkCreateImageView`
succeeding, the array after the loop has the view of image 3 in entry 0 and
entries 1 and 2 still uninitialised: every call writes to entry 0, so entry
`i` does not hold the view created from image `i`. -/
theorem createImageViews_writes_first_entry :
    imageViewsCreated (okDriver [deviceA]) [1, 2, 3] = true ∧
    createImageViews (okDriver [deviceA]) [1, 2, 3] = some [some 3, none, none] ∧
    createImageViews (okDriver [deviceA]) [1, 2, 3] ≠ some [some 1, some 2, some 3] ∧
    createImageViews (okDriver [deviceA]) [1, 2] = some [some 2, none] := by
  decide

end VulkanTriangle
